import Mathlib

/-!
Shallow embedding of the dispatch/recovery engine of the cchooks runner
(`runner.go`: `Runner`, `Run`, `handlePreToolUse`, `handlePostToolUse`,
`handleNotification`, `handleStop`, `outputResponse`, `isEmpty`,
`handleError`, `readTranscript`) together with the data model it operates
on (`events.go`, `responses.go`, `transcript.go`).

Modelling conventions:
* Go slices of transcript entries are modelled as `Option (List _)`:
  `none` is the Go `nil` slice, `some l` a non-nil slice holding `l`.
  Appending to a `nil` slice allocates, exactly as in Go (`goAppend`).
* The standard library (`encoding/json`, the file system, `os.Stdin`) is
  abstracted into an `Env` of decode/encode/filesystem functions; all
  control flow of the runner itself is embedded concretely.
* A Go handler call either returns a (possibly nil) response pointer, or
  returns a non-nil error, or panics (`HandlerOutcome`).
* `os.Exit`, writes to stdout/stderr and `Run`'s own return value are
  collected into an `Outcome` value.
-/

set_option autoImplicit false

namespace CCHooks

/-- A decoded top-level JSON value as the runner observes it: the runner only
ever asks whether a field of the generic object is a string (the
`hook_event_name` discriminator lookup in `Run` and `handleError`), so every
other shape is collapsed to `other`. -/
inductive JValue where
  | str (s : String)
  | other
  deriving DecidableEq, Repr

/-- The generic object produced by `json.Unmarshal(rawJSON, &rawEvent)`. -/
def JObject := List (String × JValue)

/-- `RawResponse` (runner.go): output text plus an exit code. -/
structure RawResponse where
  Output : String
  ExitCode : Int
  deriving DecidableEq, Repr

/-- `PreToolUseResponse` (responses.go). -/
structure PreToolUseResponse where
  Decision : String
  Continue : Option Bool
  StopReason : String
  Reason : String
  deriving DecidableEq, Repr

/-- `PostToolUseResponse` (responses.go). -/
structure PostToolUseResponse where
  Decision : String
  Continue : Option Bool
  StopReason : String
  Reason : String
  deriving DecidableEq, Repr

/-- `NotificationResponse` (responses.go): only the two optional fields. -/
structure NotificationResponse where
  Continue : Option Bool
  StopReason : String
  deriving DecidableEq, Repr

/-- `StopResponse` (responses.go). -/
structure StopResponse where
  Decision : String
  Continue : Option Bool
  StopReason : String
  Reason : String
  deriving DecidableEq, Repr

/-- `TranscriptEntry` (transcript.go). JSON-ish scalar payloads
(`json.RawMessage`, `time.Time`, `interface` fields) are carried as plain
strings; nothing in the runner inspects them. -/
structure TranscriptEntry where
  ParentUUID : Option String
  UUID : String
  IsSidechain : Bool
  UserType : String
  CWD : String
  SessionID : String
  Version : String
  EntryType : String
  Message : String
  Timestamp : String
  RequestID : String
  IsMeta : Bool
  ToolUseResult : Option String
  IsAPIErrorMessage : Bool
  deriving DecidableEq, Repr

instance : Inhabited TranscriptEntry :=
  ⟨⟨none, "", false, "", "", "", "", "", "", "", "", false, none, false⟩⟩

/-- `PreToolUseEvent` (events.go); `json.RawMessage` payloads kept as text. -/
structure PreToolUseEvent where
  SessionID : String
  ToolName : String
  ToolInput : String
  deriving DecidableEq, Repr

/-- `PostToolUseEvent` (events.go). -/
structure PostToolUseEvent where
  SessionID : String
  ToolName : String
  ToolInput : String
  ToolResponse : String
  deriving DecidableEq, Repr

/-- `NotificationEvent` (events.go). -/
structure NotificationEvent where
  SessionID : String
  Message : String
  deriving DecidableEq, Repr

/-- `StopEvent` (events.go). `Transcript` is a Go slice: `none` models the
Go `nil` slice, `some l` a non-nil slice. -/
structure StopEvent where
  SessionID : String
  StopHookActive : Bool
  TranscriptPath : String
  Transcript : Option (List TranscriptEntry)
  deriving DecidableEq, Repr

/-- Go `append` on a slice of transcript entries: appending to the `nil`
slice allocates a fresh non-nil slice. -/
def goAppend {α : Type} : Option (List α) → α → Option (List α)
  | none, a => some [a]
  | some l, a => some (l ++ [a])

/-- The element list of a Go slice; the `nil` slice has no elements. -/
def goToList {α : Type} : Option (List α) → List α
  | none => []
  | some l => l

/-- A recovered Go panic value as classified by the type switch in `Run`:
a value implementing `error`, a string, or any other value (kept as its
`%v` rendering). -/
inductive PanicValue where
  | err (msg : String)
  | str (s : String)
  | other (text : String)
  deriving DecidableEq, Repr

/-- The message the recovery in `Run` extracts from a panic value
(`%w` on errors, `%s` on strings, `%v` otherwise). -/
def panicMessage : PanicValue → String
  | .err m => m
  | .str s => s
  | .other t => t

/-- The runtime error raised by dereferencing a nil pointer (it implements
`error`, so the recovery in `Run` takes the `error` branch). -/
def nilDerefPanic : PanicValue :=
  .err "runtime error: invalid memory address or nil pointer dereference"

/-- Result of invoking one Go handler: it returns a possibly-nil response
pointer with a nil error, or returns a non-nil error, or panics. -/
inductive HandlerOutcome (ρ : Type) where
  | ok (resp : Option ρ)
  | fail (msg : String)
  | panics (v : PanicValue)

/-- A value of one of the four response pointer types as passed to
`outputResponse` / `isEmpty`; `none` inside a variant is a nil pointer of
that type. -/
inductive ResponseVal where
  | pre (p : Option PreToolUseResponse)
  | post (p : Option PostToolUseResponse)
  | notif (p : Option NotificationResponse)
  | stop (p : Option StopResponse)

/-- `Runner` (runner.go lines 16-34): one optional handler slot per event
kind, plus the `Raw` preprocessor, the first-attempt `StopOnce` slot, and
the `Error` callback. -/
structure Runner where
  Raw : Option (String → HandlerOutcome RawResponse)
  PreToolUse : Option (PreToolUseEvent → HandlerOutcome PreToolUseResponse)
  PostToolUse : Option (PostToolUseEvent → HandlerOutcome PostToolUseResponse)
  Notification : Option (NotificationEvent → HandlerOutcome NotificationResponse)
  Stop : Option (StopEvent → HandlerOutcome StopResponse)
  StopOnce : Option (StopEvent → HandlerOutcome StopResponse)
  Error : Option (String → String → Option RawResponse)

/-- The runner with no handler configured at all. -/
def emptyRunner : Runner :=
  ⟨none, none, none, none, none, none, none⟩

/-- Abstraction of the standard library and the operating system as used by
the runner: `encoding/json` decoding/encoding (deterministic functions) and
the file system (`fs path` is the line list of the file at `path`, or the
`os.Open` error). All of the runner's own control flow is concrete. -/
structure Env where
  decodeTop : String → Except String JObject
  decodePre : JObject → Except String PreToolUseEvent
  decodePost : JObject → Except String PostToolUseEvent
  decodeNotif : JObject → Except String NotificationEvent
  decodeStop : JObject → Except String StopEvent
  parseEntry : String → Option TranscriptEntry
  encode : ResponseVal → Except String String
  fs : String → Except String (List String)

/-- A computation step that may complete or escape with a Go panic. -/
inductive StepResult (α : Type) where
  | ok (a : α)
  | panicked (v : PanicValue)
  deriving DecidableEq

/-- One iteration of `readTranscript`'s scan loop (runner.go lines 345-362):
skip an empty line, skip a line that fails to parse, append the entry of a
line that parses. -/
def scanStep (parse : String → Option TranscriptEntry)
    (entries : Option (List TranscriptEntry)) (line : String) :
    Option (List TranscriptEntry) :=
  if line = "" then entries
  else
    match parse line with
    | none => entries
    | some e => goAppend entries e

/-- `readTranscript`'s scan loop (runner.go lines 341-362): walk the lines
with `scanStep`, starting from the `nil` slice
(`var entries []TranscriptEntry`). -/
def scanEntries (parse : String → Option TranscriptEntry)
    (lines : List String) : Option (List TranscriptEntry) :=
  lines.foldl (scanStep parse) none

/-- `readTranscript` (runner.go lines 334-369): open the side-file (an open
failure is wrapped and returned as an error), then scan its lines. -/
def readTranscript (env : Env) (path : String) :
    Except String (Option (List TranscriptEntry)) :=
  match env.fs path with
  | .error e => .error ("failed to open transcript file: " ++ e)
  | .ok lines => .ok (scanEntries env.parseEntry lines)

/-- The transcript value `handleStop` stores into the event (runner.go lines
225-238): with a non-empty path, a loader error is replaced by the empty
non-nil slice and a loader success is taken as-is; with no path the empty
non-nil slice is stored. -/
def stopTranscript (env : Env) (path : String) : Option (List TranscriptEntry) :=
  if path ≠ "" then
    match readTranscript env path with
    | .error _ => some []
    | .ok t => t
  else some []

/-- The lines that survive `readTranscript`'s scan: non-empty and parsing. -/
def parsedLines (parse : String → Option TranscriptEntry)
    (lines : List String) : List TranscriptEntry :=
  lines.filterMap (fun ln => if ln = "" then none else parse ln)

theorem goAppend_eq {α : Type} (s : Option (List α)) (a : α) :
    goAppend s a = some (goToList s ++ [a]) := by
  cases s <;> rfl

theorem scanEntries_from_some (parse : String → Option TranscriptEntry)
    (lines : List String) (l : List TranscriptEntry) :
    lines.foldl (scanStep parse) (some l) = some (l ++ parsedLines parse lines) := by
  induction lines generalizing l with
  | nil => simp [parsedLines]
  | cons ln rest ih =>
    by_cases hln : ln = ""
    · simp [parsedLines, hln, List.foldl_cons, scanStep, ih l]
    · cases hp : parse ln with
      | none => simp [parsedLines, hln, hp, List.foldl_cons, scanStep, ih l]
      | some e =>
        simp [parsedLines, hln, hp, List.foldl_cons, scanStep, goAppend,
          ih (l ++ [e])]

theorem scanEntries_eq (parse : String → Option TranscriptEntry)
    (lines : List String) :
    scanEntries parse lines =
      match parsedLines parse lines with
      | [] => none
      | e :: es => some (e :: es) := by
  induction lines with
  | nil => simp [scanEntries, parsedLines]
  | cons ln rest ih =>
    by_cases hln : ln = ""
    · simpa [scanEntries, parsedLines, hln, List.foldl_cons, scanStep] using ih
    · cases hp : parse ln with
      | none =>
        simpa [scanEntries, parsedLines, hln, hp, List.foldl_cons, scanStep]
          using ih
      | some e =>
        simp [scanEntries, parsedLines, hln, hp, List.foldl_cons, scanStep,
          goAppend, scanEntries_from_some]

/-- `isEmpty` (runner.go lines 286-299): a response pointer of any of the
four kinds is empty iff all its optional fields are unset. Evaluating a
field of a nil pointer panics with the runtime nil-dereference error. -/
def isEmpty : ResponseVal → StepResult Bool
  | .pre none => .panicked nilDerefPanic
  | .pre (some v) =>
    .ok (decide (v.Decision = "" ∧ v.Continue = none ∧ v.StopReason = "" ∧ v.Reason = ""))
  | .post none => .panicked nilDerefPanic
  | .post (some v) =>
    .ok (decide (v.Decision = "" ∧ v.Continue = none ∧ v.StopReason = "" ∧ v.Reason = ""))
  | .notif none => .panicked nilDerefPanic
  | .notif (some v) =>
    .ok (decide (v.Continue = none ∧ v.StopReason = ""))
  | .stop none => .panicked nilDerefPanic
  | .stop (some v) =>
    .ok (decide (v.Decision = "" ∧ v.Continue = none ∧ v.StopReason = "" ∧ v.Reason = ""))

/-- `outputResponse` (runner.go lines 269-284): an empty response produces
no output; otherwise the response is serialized (a serialization failure is
wrapped as an encode error) and the document is written to stdout. The
result carries either an error message or the optional stdout document. -/
def outputResponse (encode : ResponseVal → Except String String)
    (resp : ResponseVal) : StepResult (Except String (Option String)) :=
  match isEmpty resp with
  | .panicked v => .panicked v
  | .ok true => .ok (.ok none)
  | .ok false =>
    match encode resp with
    | .error m => .ok (.error ("failed to encode response: " ++ m))
    | .ok doc => .ok (.ok (some doc))

/-- `handlePreToolUse` (runner.go lines 126-153): no registered handler is a
silent no-op; otherwise decode the typed event, invoke the handler, and emit
its response. -/
def handlePreToolUse (env : Env) (r : Runner) (obj : JObject) :
    StepResult (Except String (Option String)) :=
  match r.PreToolUse with
  | none => .ok (.ok none)
  | some h =>
    match env.decodePre obj with
    | .error m => .ok (.error ("failed to parse PreToolUseEvent: " ++ m))
    | .ok ev =>
      match h ev with
      | .panics v => .panicked v
      | .fail m => .ok (.error m)
      | .ok resp => outputResponse env.encode (.pre resp)

/-- `handlePostToolUse` (runner.go lines 155-182). -/
def handlePostToolUse (env : Env) (r : Runner) (obj : JObject) :
    StepResult (Except String (Option String)) :=
  match r.PostToolUse with
  | none => .ok (.ok none)
  | some h =>
    match env.decodePost obj with
    | .error m => .ok (.error ("failed to parse PostToolUseEvent: " ++ m))
    | .ok ev =>
      match h ev with
      | .panics v => .panicked v
      | .fail m => .ok (.error m)
      | .ok resp => outputResponse env.encode (.post resp)

/-- `handleNotification` (runner.go lines 184-211). -/
def handleNotification (env : Env) (r : Runner) (obj : JObject) :
    StepResult (Except String (Option String)) :=
  match r.Notification with
  | none => .ok (.ok none)
  | some h =>
    match env.decodeNotif obj with
    | .error m => .ok (.error ("failed to parse NotificationEvent: " ++ m))
    | .ok ev =>
      match h ev with
      | .panics v => .panicked v
      | .fail m => .ok (.error m)
      | .ok resp => outputResponse env.encode (.notif resp)

/-- The stop-handler resolution of `handleStop` (runner.go lines 240-254):
when `stop_hook_active` is false and `StopOnce` is configured, `StopOnce`
is chosen; otherwise the general `Stop` handler is chosen if configured;
otherwise no handler is chosen. -/
def selectStopHandler (r : Runner) (active : Bool) :
    Option (StopEvent → HandlerOutcome StopResponse) :=
  if !active && r.StopOnce.isSome then r.StopOnce
  else if r.Stop.isSome then r.Stop
  else none

/-- `handleStop` (runner.go lines 213-267): decode the typed event first
(note: before any handler-registration check), load the transcript, resolve
the handler with `selectStopHandler`; no chosen handler is a no-op;
otherwise invoke the chosen handler and emit its response. -/
def handleStop (env : Env) (r : Runner) (obj : JObject) :
    StepResult (Except String (Option String)) :=
  match env.decodeStop obj with
  | .error m => .ok (.error ("failed to parse StopEvent: " ++ m))
  | .ok ev0 =>
    let ev : StopEvent := { ev0 with Transcript := stopTranscript env ev0.TranscriptPath }
    match selectStopHandler r ev.StopHookActive with
    | none => .ok (.ok none)
    | some h =>
      match h ev with
      | .panics v => .panicked v
      | .fail m => .ok (.error m)
      | .ok resp => outputResponse env.encode (.stop resp)

/-- Result of the body of `Run` before panic recovery is resolved: the raw
preprocessor called `osExit`, or an error is pending for `handleError`, or
the body completed, having written `out` to stdout. -/
inductive BodyResult where
  | exited (code : Int) (out : String)
  | errored (msg : String)
  | done (out : String)
  deriving DecidableEq, Repr

/-- Adapting a handler result to a `BodyResult` (the `dispatchErr` /
`outputResponse` plumbing of `Run` and the per-kind handlers). -/
def liftHandled : StepResult (Except String (Option String)) → StepResult BodyResult
  | .panicked v => .panicked v
  | .ok (.error m) => .ok (.errored m)
  | .ok (.ok none) => .ok (.done "")
  | .ok (.ok (some doc)) => .ok (.done doc)

/-- The dispatch switch of `Run` (runner.go lines 104-116): exact string
match on the discriminator; an unrecognized value is an error. -/
def dispatchEvent (env : Env) (r : Runner) (name : String) (obj : JObject) :
    StepResult BodyResult :=
  if name = "PreToolUse" then liftHandled (handlePreToolUse env r obj)
  else if name = "PostToolUse" then liftHandled (handlePostToolUse env r obj)
  else if name = "Notification" then liftHandled (handleNotification env r obj)
  else if name = "Stop" then liftHandled (handleStop env r obj)
  else .ok (.errored ("unknown event type: " ++ name))

/-- The classification stage of `Run` (runner.go lines 87-116): parse the
raw text as a generic JSON object, extract the string discriminator under
the fixed key, and dispatch. -/
def runCore (env : Env) (r : Runner) (rawJSON : String) : StepResult BodyResult :=
  match env.decodeTop rawJSON with
  | .error m => .ok (.errored ("failed to decode stdin: " ++ m))
  | .ok obj =>
    match List.lookup "hook_event_name" obj with
    | some (JValue.str name) => dispatchEvent env r name obj
    | _ => .ok (.errored "missing or invalid hook_event_name field")

/-- The body of `Run` under the recovery boundary (runner.go lines 69-123):
the optional `Raw` preprocessor first — a non-nil `RawResponse` short-
circuits to `osExit` with its output, a nil one continues — then the
classification and dispatch stages. -/
def runBody (env : Env) (r : Runner) (rawJSON : String) : StepResult BodyResult :=
  match r.Raw with
  | none => runCore env r rawJSON
  | some f =>
    match f rawJSON with
    | .panics v => .panicked v
    | .fail m => .ok (.errored m)
    | .ok (some resp) => .ok (.exited resp.ExitCode resp.Output)
    | .ok none => runCore env r rawJSON

/-- The terminal observable of one invocation: the process exited through
`osExit` with the given code and accumulated stdout/stderr text, or `Run`
returned to its caller (with `none` for a nil error), or an unrecovered
panic propagated out of `Run`. -/
inductive Outcome where
  | exit (code : Int) (stdout stderr : String)
  | ret (errMsg : Option String) (stdout stderr : String)
  | fatal (v : PanicValue)
  deriving DecidableEq, Repr

/-- The exit code the operating system observes: `osExit`'s argument, or 0
when `Run` returns nil and a hook `main` falls off its end. A non-nil
return from `Run` and an unrecovered panic are outside the model. -/
def observedCode : Outcome → Option Int
  | .exit c _ _ => some c
  | .ret none _ _ => some 0
  | .ret (some _) _ _ => none
  | .fatal _ => none

/-- The stdout text of an outcome (empty for an unrecovered panic). -/
def stdoutOf : Outcome → String
  | .exit _ out _ => out
  | .ret _ out _ => out
  | .fatal _ => ""

/-- The re-parse of the raw input inside `handleError` (runner.go lines
322-328): the default exit code is 0 exactly when the raw text decodes as a
JSON object whose discriminator field is the string value naming the
termination kind. -/
def isStopRaw (env : Env) (rawJSON : String) : Bool :=
  match env.decodeTop rawJSON with
  | .error _ => false
  | .ok obj =>
    match List.lookup "hook_event_name" obj with
    | some (JValue.str e) => e == "Stop"
    | _ => false

/-- `handleError` (runner.go lines 304-331): offer the error and the raw
input to the `Error` callback when configured; a non-nil returned response
is used verbatim (its output on stdout, its exit code). Otherwise the
default policy writes the message and a newline to stderr and exits with
code 2, or 0 when the raw input names the termination kind. -/
def handleError (env : Env) (r : Runner) (rawJSON errMsg : String) : Outcome :=
  match r.Error with
  | some cb =>
    match cb rawJSON errMsg with
    | some resp => .exit resp.ExitCode resp.Output ""
    | none =>
      .exit (if isStopRaw env rawJSON then 0 else 2) "" (errMsg ++ "\n")
  | none =>
    .exit (if isStopRaw env rawJSON then 0 else 2) "" (errMsg ++ "\n")

/-- `Run` (runner.go lines 37-124). A failed stdin read returns the wrapped
error to the caller before the recovery boundary is installed. Otherwise
the body runs under the recovery boundary: a panic equal to the test-exit
sentinel (the string value used by the exit shim) is re-raised; any other
panic is converted to a message of the form given by the recovery type
switch and routed to `handleError`; a pending error is routed to
`handleError`; completion returns nil. -/
def Run (env : Env) (r : Runner) (stdinData : Except String String) : Outcome :=
  match stdinData with
  | .error m => .ret (some ("failed to read stdin: " ++ m)) "" ""
  | .ok rawJSON =>
    match runBody env r rawJSON with
    | .panicked v =>
      if v = PanicValue.str "exit" then .fatal v
      else handleError env r rawJSON ("panic: " ++ panicMessage v)
    | .ok (.exited code out) => .exit code out ""
    | .ok (.errored m) => handleError env r rawJSON m
    | .ok (.done out) => .ret none out ""

/-!  Concrete instances used by the witnesses: a small environment standing
for `encoding/json` and the file system on a handful of fixed inputs, and a
few concretely configured runners.  -/

/-- A concrete environment: `rawPre` and `rawStop` decode to well-formed
generic objects, `rawStopBad` to an object whose `stop_hook_active` field
is not a bool (so the typed `StopEvent` decode fails, as
`json.Unmarshal` fails on a type mismatch); the file `good.jsonl` holds two
parseable lines, `empty.jsonl` one blank line; the line `bad` fails to
parse as a transcript entry. -/
def testEnv : Env where
  decodeTop s :=
    if s = "rawPre" then .ok [("hook_event_name", .str "PreToolUse")]
    else if s = "rawStop" then .ok [("hook_event_name", .str "Stop")]
    else if s = "rawStopBad" then
      .ok [("hook_event_name", .str "Stop"), ("stop_hook_active", .other)]
    else .error "unexpected end of JSON input"
  decodePre _ := .ok ⟨"s1", "Bash", "ls"⟩
  decodePost _ := .ok ⟨"s1", "Bash", "ls", "ok"⟩
  decodeNotif _ := .ok ⟨"s1", "note"⟩
  decodeStop obj :=
    match List.lookup "stop_hook_active" obj with
    | some JValue.other =>
      .error "json: cannot unmarshal string into field stop_hook_active of type bool"
    | _ => .ok ⟨"s1", false, "", none⟩
  parseEntry ln := if ln = "bad" then none else some default
  encode _ := .ok "doc"
  fs p :=
    if p = "good.jsonl" then .ok ["a", "b"]
    else if p = "empty.jsonl" then .ok [""]
    else .error "no such file or directory"

/-- A first-attempt stop handler used by witnesses. -/
def stopOnceFn : StopEvent → HandlerOutcome StopResponse :=
  fun _ => .ok (some ⟨"block", none, "", "confirm"⟩)

/-- A general stop handler used by witnesses. -/
def stopFn : StopEvent → HandlerOutcome StopResponse :=
  fun _ => .ok (some ⟨"", none, "", ""⟩)

/-- A runner with both stop slots configured. -/
def bothStopRunner : Runner :=
  { emptyRunner with Stop := some stopFn, StopOnce := some stopOnceFn }

/-- A runner whose raw preprocessor panics with the string value boom. -/
def panicRunner : Runner :=
  { emptyRunner with Raw := some (fun _ => .panics (.str "boom")) }

/-- A runner whose error callback always supplies a custom directive. -/
def errCbRunner : Runner :=
  { emptyRunner with Error := some (fun _ _ => some ⟨"custom", 7⟩) }

/-- A runner whose tool-invocation handler returns the structurally empty
response. -/
def emptyRespRunner : Runner :=
  { emptyRunner with PreToolUse := some (fun _ => .ok (some ⟨"", none, "", ""⟩)) }

/-- A runner whose tool-invocation handler returns a nil response pointer
with a nil error. -/
def nilRespRunner : Runner :=
  { emptyRunner with PreToolUse := some (fun _ => .ok none) }

/-- A runner whose stop handler returns a nil response pointer with a nil
error. -/
def nilStopRunner : Runner :=
  { emptyRunner with Stop := some (fun _ => .ok none) }

/-!  Helper lemmas shared by several claims.  -/

theorem handleError_is_exit (env : Env) (r : Runner) (raw m : String) :
    ∃ c o e, handleError env r raw m = .exit c o e := by
  cases hE : r.Error with
  | none =>
    exact ⟨if isStopRaw env raw then 0 else 2, "", m ++ "\n",
      by simp [handleError, hE]⟩
  | some cb =>
    cases hcb : cb raw m with
    | none =>
      exact ⟨if isStopRaw env raw then 0 else 2, "", m ++ "\n",
        by simp [handleError, hE, hcb]⟩
    | some resp =>
      exact ⟨resp.ExitCode, resp.Output, "", by simp [handleError, hE, hcb]⟩

theorem selectStopHandler_none (r : Runner) (active : Bool)
    (h1 : r.Stop = none) (h2 : r.StopOnce = none) :
    selectStopHandler r active = none := by
  simp [selectStopHandler, h1, h2]

theorem parsedLines_all_parse (p : String → Option TranscriptEntry)
    (lines : List String) (h : ∀ ln ∈ lines, ln ≠ "" ∧ (p ln).isSome) :
    parsedLines p lines = lines.filterMap p ∧
      (lines.filterMap p).length = lines.length := by
  induction lines with
  | nil => simp [parsedLines]
  | cons ln rest ih =>
    obtain ⟨hne, hsome⟩ := h ln (List.mem_cons_self ln rest)
    obtain ⟨e, he⟩ := Option.isSome_iff_exists.mp hsome
    have ih2 := ih (fun x hx => h x (List.mem_cons_of_mem ln hx))
    constructor
    · simp [parsedLines, List.filterMap_cons, hne, he] at ih2 ⊢
      exact ih2.1
    · simp [List.filterMap_cons, he, ih2.2]

theorem parsedLines_filter_blank (p : String → Option TranscriptEntry)
    (lines : List String) :
    parsedLines p (lines.filter (fun ln => !(ln == ""))) = parsedLines p lines := by
  induction lines with
  | nil => simp [parsedLines]
  | cons ln rest ih =>
    by_cases hln : ln = ""
    · simpa [parsedLines, List.filter_cons, hln, List.filterMap_cons] using ih
    · cases hp : p ln with
      | none =>
        simpa [parsedLines, List.filter_cons, hln, hp, List.filterMap_cons]
          using ih
      | some e =>
        simpa [parsedLines, List.filter_cons, hln, hp, List.filterMap_cons]
          using ih

/-!  The claims.  -/

/-- C1: Stop-event handler resolution is exact. With the active flag false
and a first-attempt handler configured, that handler alone is chosen (and
`handleStop` is invariant under the contents of the general slot, so the
general handler never runs there); with the flag true, or with no
first-attempt handler, the chosen handler is exactly the general slot; when
resolution chooses nothing, `handleStop` is a no-op. Since resolution
yields at most one handler, in no case do both run. -/
theorem stop_resolution_exact :
    (∀ (r : Runner) (f : StopEvent → HandlerOutcome StopResponse),
      r.StopOnce = some f → selectStopHandler r false = some f) ∧
    (∀ r : Runner, selectStopHandler r true = r.Stop) ∧
    (∀ r : Runner, r.StopOnce = none → selectStopHandler r false = r.Stop) ∧
    (∀ (env : Env) (r : Runner) (obj : JObject) (ev0 : StopEvent),
      env.decodeStop obj = .ok ev0 →
      selectStopHandler r ev0.StopHookActive = none →
      handleStop env r obj = .ok (.ok none)) ∧
    (∀ (env : Env) (r : Runner) (obj : JObject) (ev0 : StopEvent)
      (g : Option (StopEvent → HandlerOutcome StopResponse)),
      env.decodeStop obj = .ok ev0 → ev0.StopHookActive = false →
      r.StopOnce.isSome = true →
      handleStop env { r with Stop := g } obj =
        handleStop env { r with Stop := none } obj) := by
  refine ⟨?_, ?_, ?_, ?_, ?_⟩
  · intro r f h
    simp [selectStopHandler, h]
  · intro r
    cases h : r.Stop <;> simp [selectStopHandler, h]
  · intro r h
    cases h2 : r.Stop <;> simp [selectStopHandler, h, h2]
  · intro env r obj ev0 hdec hsel
    simp [handleStop, hdec, hsel]
  · intro env r obj ev0 g hdec hact hso
    simp [handleStop, hdec, selectStopHandler, hact, hso]

/-- C1 witness: with both handlers configured and the flag false, resolution
chooses exactly the first-attempt handler. -/
theorem stop_resolution_exact_witness :
    bothStopRunner.StopOnce = some stopOnceFn ∧
    selectStopHandler bothStopRunner false = some stopOnceFn :=
  ⟨rfl, stop_resolution_exact.1 bothStopRunner stopOnceFn rfl⟩

/-- C2 counterexample: a side-file that opens and consists of one blank
line (so it parses cleanly with every line skipped) leaves the transcript
field as the nil slice, not a non-null empty sequence. -/
theorem stop_transcript_nil_counterexample :
    ("empty.jsonl" = "") = False ∧ testEnv.fs "empty.jsonl" = .ok [""] ∧
    stopTranscript testEnv "empty.jsonl" = none := by
  refine ⟨by simp, rfl, ?_⟩
  rfl

/-- C2 (amended): after transcript loading the field is the non-null empty
sequence when no side-file path is given or the side-file cannot be opened;
when the side-file opens, the field holds the parsed entries and is
non-null exactly when at least one line parses — a file yielding zero
entries (empty, or only blank or malformed lines) leaves the field nil. -/
theorem stop_transcript_nullability (env : Env) (path : String) :
    (path = "" → stopTranscript env path = some []) ∧
    (∀ e, path ≠ "" → env.fs path = .error e →
      stopTranscript env path = some []) ∧
    (∀ lines, path ≠ "" → env.fs path = .ok lines →
      stopTranscript env path =
        match parsedLines env.parseEntry lines with
        | [] => none
        | e :: es => some (e :: es)) := by
  refine ⟨?_, ?_, ?_⟩
  · intro h
    simp [stopTranscript, h]
  · intro e hne hfs
    simp [stopTranscript, hne, readTranscript, hfs]
  · intro lines hne hfs
    simp [stopTranscript, hne, readTranscript, hfs, scanEntries_eq]

/-- C2 witness: with no side-file path the field is the non-null empty
sequence. -/
theorem stop_transcript_nullability_witness :
    stopTranscript testEnv "" = some [] :=
  (stop_transcript_nullability testEnv "").1 rfl

/-- C3: under the default policy (no error callback, or the callback
returns nil) every pipeline error writes the message plus a newline to
stderr and exits with code 2, except that an input whose discriminator
names the termination kind exits with code 0; the same holds end to end
for any error pending out of the body of `Run`. -/
theorem default_error_policy (env : Env) (r : Runner) (raw m : String) :
    (r.Error = none →
      handleError env r raw m =
        .exit (if isStopRaw env raw then 0 else 2) "" (m ++ "\n")) ∧
    (∀ cb, r.Error = some cb → cb raw m = none →
      handleError env r raw m =
        .exit (if isStopRaw env raw then 0 else 2) "" (m ++ "\n")) ∧
    (r.Error = none → runBody env r raw = .ok (.errored m) →
      Run env r (.ok raw) =
        .exit (if isStopRaw env raw then 0 else 2) "" (m ++ "\n")) := by
  refine ⟨?_, ?_, ?_⟩
  · intro hE
    simp [handleError, hE]
  · intro cb hE hcb
    simp [handleError, hE, hcb]
  · intro hE hbody
    simp [Run, hbody, handleError, hE]

/-- C3 witness: a pipeline error on a termination-kind input with no error
callback exits with code 0 and the message on stderr. -/
theorem default_error_policy_witness :
    emptyRunner.Error = none ∧ isStopRaw testEnv "rawStop" = true ∧
    handleError testEnv emptyRunner "rawStop" "boom" =
      .exit 0 "" "boom\n" :=
  ⟨rfl, rfl, (default_error_policy testEnv emptyRunner "rawStop" "boom").1 rfl⟩

/-- C4: a panic escaping the body of `Run` is resolved by the recovery
boundary: the designated sentinel (the string value exit) is re-raised;
every other panic value is converted to a message of the form
panic: value — stringifying error values, string values and other values
alike — and routed through `handleError` exactly like a returned error,
never re-raised. -/
theorem panic_supervision (env : Env) (r : Runner) (raw : String)
    (v : PanicValue) :
    (runBody env r raw = .panicked v →
      (v = PanicValue.str "exit" → Run env r (.ok raw) = .fatal v) ∧
      (v ≠ PanicValue.str "exit" →
        Run env r (.ok raw) =
          handleError env r raw ("panic: " ++ panicMessage v) ∧
        ∀ w, Run env r (.ok raw) ≠ .fatal w)) ∧
    (∀ m, panicMessage (PanicValue.err m) = m) ∧
    (∀ s, panicMessage (PanicValue.str s) = s) ∧
    (∀ t, panicMessage (PanicValue.other t) = t) := by
  refine ⟨?_, fun m => rfl, fun s => rfl, fun t => rfl⟩
  intro hbody
  constructor
  · intro hv
    simp [Run, hbody, hv]
  · intro hv
    constructor
    · simp [Run, hbody, hv]
    · intro w
      obtain ⟨c, o, e, hex⟩ :=
        handleError_is_exit env r raw ("panic: " ++ panicMessage v)
      simp [Run, hbody, hv, hex]

/-- C4 witness: a raw-preprocessor panic with the string boom is converted
and routed through `handleError`. -/
theorem panic_supervision_witness :
    runBody testEnv panicRunner "rawPre" = .panicked (.str "boom") ∧
    Run testEnv panicRunner (.ok "rawPre") =
      handleError testEnv panicRunner "rawPre" "panic: boom" :=
  ⟨rfl,
    (((panic_supervision testEnv panicRunner "rawPre" (.str "boom")).1
      rfl).2 (by decide)).1⟩

/-- C5: a response of any of the four kinds is structurally empty iff every
optional field of its variant is unset; `outputResponse` emits nothing for
an empty response, the serialized document for a non-empty one, and wraps a
serialization failure as an encode error; end to end, an empty response
makes `Run` return nil (the process exits 0) with zero bytes on stdout,
and a non-empty response makes `Run` return nil with the serialized
document on stdout. -/
theorem response_emptiness_emission :
    (∀ v : PreToolUseResponse, isEmpty (.pre (some v)) = .ok true ↔
      v.Decision = "" ∧ v.Continue = none ∧ v.StopReason = "" ∧ v.Reason = "") ∧
    (∀ v : PostToolUseResponse, isEmpty (.post (some v)) = .ok true ↔
      v.Decision = "" ∧ v.Continue = none ∧ v.StopReason = "" ∧ v.Reason = "") ∧
    (∀ v : NotificationResponse, isEmpty (.notif (some v)) = .ok true ↔
      v.Continue = none ∧ v.StopReason = "") ∧
    (∀ v : StopResponse, isEmpty (.stop (some v)) = .ok true ↔
      v.Decision = "" ∧ v.Continue = none ∧ v.StopReason = "" ∧ v.Reason = "") ∧
    (∀ (enc : ResponseVal → Except String String) (resp : ResponseVal),
      isEmpty resp = .ok true → outputResponse enc resp = .ok (.ok none)) ∧
    (∀ (enc : ResponseVal → Except String String) (resp : ResponseVal)
      (doc : String), isEmpty resp = .ok false → enc resp = .ok doc →
      outputResponse enc resp = .ok (.ok (some doc))) ∧
    (∀ (enc : ResponseVal → Except String String) (resp : ResponseVal)
      (m : String), isEmpty resp = .ok false → enc resp = .error m →
      outputResponse enc resp =
        .ok (.error ("failed to encode response: " ++ m))) ∧
    (∀ (env : Env) (r : Runner) (raw : String) (obj : JObject)
      (h : PreToolUseEvent → HandlerOutcome PreToolUseResponse)
      (ev : PreToolUseEvent) (v : PreToolUseResponse),
      r.Raw = none → env.decodeTop raw = .ok obj →
      List.lookup "hook_event_name" obj = some (.str "PreToolUse") →
      r.PreToolUse = some h → env.decodePre obj = .ok ev →
      h ev = .ok (some v) →
      (isEmpty (.pre (some v)) = .ok true →
        Run env r (.ok raw) = .ret none "" "" ∧
        observedCode (Run env r (.ok raw)) = some 0 ∧
        stdoutOf (Run env r (.ok raw)) = "") ∧
      (∀ doc, isEmpty (.pre (some v)) = .ok false →
        env.encode (.pre (some v)) = .ok doc →
        Run env r (.ok raw) = .ret none doc "" ∧
        observedCode (Run env r (.ok raw)) = some 0)) := by
  refine ⟨?_, ?_, ?_, ?_, ?_, ?_, ?_, ?_⟩
  · intro v
    simp [isEmpty]
  · intro v
    simp [isEmpty]
  · intro v
    simp [isEmpty]
  · intro v
    simp [isEmpty]
  · intro enc resp hempty
    simp [outputResponse, hempty]
  · intro enc resp doc hne henc
    simp [outputResponse, hne, henc]
  · intro enc resp m hne henc
    simp [outputResponse, hne, henc]
  · intro env r raw obj h ev v hraw hdec hlook hpre hdecpre hresp
    constructor
    · intro hempty
      have hrun : Run env r (.ok raw) = .ret none "" "" := by
        simp [Run, runBody, hraw, runCore, hdec, hlook, dispatchEvent,
          handlePreToolUse, hpre, hdecpre, hresp, outputResponse, hempty,
          liftHandled]
      exact ⟨hrun, by simp [hrun, observedCode], by simp [hrun, stdoutOf]⟩
    · intro doc hne henc
      have hrun : Run env r (.ok raw) = .ret none doc "" := by
        simp [Run, runBody, hraw, runCore, hdec, hlook, dispatchEvent,
          handlePreToolUse, hpre, hdecpre, hresp, outputResponse, hne, henc,
          liftHandled]
      exact ⟨hrun, by simp [hrun, observedCode]⟩

/-- C5 witness: a handler returning the all-unset response makes `Run`
return nil with zero bytes on stdout. -/
theorem response_emptiness_emission_witness :
    isEmpty (.pre (some ⟨"", none, "", ""⟩)) = .ok true ∧
    Run testEnv emptyRespRunner (.ok "rawPre") = .ret none "" "" :=
  ⟨by decide,
    ((response_emptiness_emission.2.2.2.2.2.2.2 testEnv emptyRespRunner
      "rawPre" [("hook_event_name", .str "PreToolUse")]
      (fun _ => .ok (some ⟨"", none, "", ""⟩)) ⟨"s1", "Bash", "ls"⟩
      ⟨"", none, "", ""⟩ rfl rfl rfl rfl rfl rfl).1 (by decide)).1⟩

/-- C6: a readable side-file whose lines all parse yields exactly one entry
per line, in file order; blank lines are skipped without changing the
entries obtained from the remaining lines; a line that fails to parse is
skipped while every remaining line is still processed; and an absent
side-file path yields the non-null empty sequence, not an error. -/
theorem transcript_loader_best_effort :
    (∀ (env : Env) (path : String) (lines : List String),
      env.fs path = .ok lines →
      (∀ ln ∈ lines, ln ≠ "" ∧ (env.parseEntry ln).isSome) →
      ∃ r0, readTranscript env path = .ok r0 ∧
        goToList r0 = lines.filterMap env.parseEntry ∧
        (goToList r0).length = lines.length) ∧
    (∀ (p : String → Option TranscriptEntry) (lines : List String),
      scanEntries p (lines.filter (fun ln => !(ln == ""))) =
        scanEntries p lines) ∧
    (∀ (p : String → Option TranscriptEntry) (l1 l2 : List String)
      (bad : String), bad ≠ "" → p bad = none →
      scanEntries p (l1 ++ bad :: l2) = scanEntries p (l1 ++ l2)) ∧
    (∀ env : Env, stopTranscript env "" = some []) := by
  refine ⟨?_, ?_, ?_, fun env => rfl⟩
  · intro env path lines hfs hall
    obtain ⟨heq, hlen⟩ := parsedLines_all_parse env.parseEntry lines hall
    refine ⟨scanEntries env.parseEntry lines, by simp [readTranscript, hfs],
      ?_, ?_⟩
    · rw [scanEntries_eq, heq]
      cases lines.filterMap env.parseEntry <;> simp [goToList]
    · rw [scanEntries_eq, heq]
      cases hc : lines.filterMap env.parseEntry with
      | nil =>
        simp only [goToList]
        rw [hc] at hlen
        simpa using hlen
      | cons e es =>
        simp only [goToList]
        rw [hc] at hlen
        simpa using hlen
  · intro p lines
    rw [scanEntries_eq, scanEntries_eq, parsedLines_filter_blank]
  · intro p l1 l2 bad hne hbad
    rw [scanEntries_eq, scanEntries_eq]
    have : parsedLines p (l1 ++ bad :: l2) = parsedLines p (l1 ++ l2) := by
      simp [parsedLines, List.filterMap_append, List.filterMap_cons, hne, hbad]
    rw [this]

/-- C6 witness: a two-line file whose lines both parse yields two entries
in order. -/
theorem transcript_loader_best_effort_witness :
    testEnv.fs "good.jsonl" = .ok ["a", "b"] ∧
    (∃ r0, readTranscript testEnv "good.jsonl" = .ok r0 ∧
      goToList r0 = ["a", "b"].filterMap testEnv.parseEntry ∧
      (goToList r0).length = (["a", "b"] : List String).length) :=
  ⟨rfl, transcript_loader_best_effort.1 testEnv "good.jsonl" ["a", "b"] rfl
    (by decide)⟩

/-- C7 counterexample: a configured error callback that always returns a
custom directive is never consulted for a stdin read failure — `Run`
returns the wrapped read error to its caller instead of exiting with the
directive (or with anything at all). -/
theorem error_callback_input_read_counterexample :
    errCbRunner.Error.isSome = true ∧
    Run testEnv errCbRunner (.error "io broken") =
      .ret (some "failed to read stdin: io broken") "" "" ∧
    ∀ c o e, Run testEnv errCbRunner (.error "io broken") ≠ .exit c o e := by
  refine ⟨rfl, rfl, ?_⟩
  intro c o e h
  exact Outcome.noConfusion h

/-- C7 (amended): every error signal arising after stdin has been read —
decode, dispatch, handler, encode, or recovered panic, i.e. any error
pending out of the body of `Run` — is offered to the configured error
callback together with the original raw input text, and a non-null
directive from the callback is used verbatim as output and exit code; a
stdin read failure, however, is returned from `Run` directly without
consulting the callback. -/
theorem error_callback_override (env : Env) (r : Runner) (raw m : String) :
    (∀ cb d, r.Error = some cb → cb raw m = some d →
      handleError env r raw m = .exit d.ExitCode d.Output "") ∧
    (runBody env r raw = .ok (.errored m) →
      Run env r (.ok raw) = handleError env r raw m) ∧
    (∀ e, env.decodeTop raw = .error e →
      runCore env r raw = .ok (.errored ("failed to decode stdin: " ++ e))) ∧
    (∀ obj, env.decodeTop raw = .ok obj →
      List.lookup "hook_event_name" obj = none →
      runCore env r raw = .ok (.errored "missing or invalid hook_event_name field")) ∧
    (∀ obj name, env.decodeTop raw = .ok obj →
      List.lookup "hook_event_name" obj = some (.str name) →
      name ≠ "PreToolUse" → name ≠ "PostToolUse" → name ≠ "Notification" →
      name ≠ "Stop" →
      runCore env r raw = .ok (.errored ("unknown event type: " ++ name))) ∧
    (∀ e, Run env r (.error e) =
      .ret (some ("failed to read stdin: " ++ e)) "" "") := by
  refine ⟨?_, ?_, ?_, ?_, ?_, fun e => rfl⟩
  · intro cb d hE hcb
    simp [handleError, hE, hcb]
  · intro hbody
    simp [Run, hbody]
  · intro e hdec
    simp [runCore, hdec]
  · intro obj hdec hlook
    simp [runCore, hdec, hlook]
  · intro obj name hdec hlook h1 h2 h3 h4
    simp [runCore, hdec, hlook, dispatchEvent, h1, h2, h3, h4]

/-- C7 witness: a handler error pending out of the body is resolved by the
callback's directive verbatim. -/
theorem error_callback_override_witness :
    errCbRunner.Error = some (fun _ _ => some ⟨"custom", 7⟩) ∧
    handleError testEnv errCbRunner "rawPre" "boom" = .exit 7 "custom" "" :=
  ⟨rfl, (error_callback_override testEnv errCbRunner "rawPre" "boom").1
    (fun _ _ => some ⟨"custom", 7⟩) ⟨"custom", 7⟩ rfl rfl⟩

/-- Modelled from the spec: the stdin reader with a wait budget is not part
of src/runner.go (the `Run` there drains stdin unboundedly; only the test
harness's stdin-timeout test exercises the budgeted reader). Per spec §4.1
the stdin device either delivers its bytes up to end-of-stream, stays
silent past the fixed wait budget (on the order of one second), or fails
with an I/O error. -/
inductive StdinDevice where
  | delivers (bytes : String)
  | silentPastBudget
  | ioFails (msg : String)

/-- Modelled from the spec: read all available bytes until end-of-stream;
if the wait budget elapses with no data arriving at all, fail with the
timeout input error; surface any other I/O failure as-is. -/
def readStdinWithTimeout : StdinDevice → Except String String
  | .delivers bytes => .ok bytes
  | .silentPastBudget => .error "timeout reading stdin"
  | .ioFails m => .error m

/-- C8: the input reader returns the raw byte buffer when the stream
delivers data up to end-of-stream, fails with the message
timeout reading stdin when the wait budget elapses with no data at all,
and returns the underlying error on any other I/O failure. -/
theorem stdin_reader_contract :
    (∀ bytes, readStdinWithTimeout (.delivers bytes) = .ok bytes) ∧
    readStdinWithTimeout .silentPastBudget = .error "timeout reading stdin" ∧
    (∀ m, readStdinWithTimeout (.ioFails m) = .error m) :=
  ⟨fun _ => rfl, rfl, fun _ => rfl⟩

/-- C9 counterexample: with no handler registered at all, a Stop-kind input
whose typed payload fails to decode is not a silent no-op — `handleStop`
decodes before checking for a registered handler, reports the decode
failure, and `Run` takes the error path, writing the failure to stderr. -/
theorem unregistered_stop_decode_counterexample :
    emptyRunner.Stop = none ∧ emptyRunner.StopOnce = none ∧
    emptyRunner.Raw = none ∧ emptyRunner.Error = none ∧
    handleStop testEnv emptyRunner
        [("hook_event_name", .str "Stop"), ("stop_hook_active", .other)] =
      .ok (.error ("failed to parse StopEvent: " ++
        "json: cannot unmarshal string into field stop_hook_active of type bool")) ∧
    Run testEnv emptyRunner (.ok "rawStopBad") =
      .exit 0 ""
        ("failed to parse StopEvent: " ++
          "json: cannot unmarshal string into field stop_hook_active of type bool" ++
          "\n") :=
  ⟨rfl, rfl, rfl, rfl, rfl, rfl⟩

/-- C9 (amended): for the three tool and notification kinds an unregistered
handler makes the invocation a silent no-op before the kind-specific
payload is even decoded; for the Stop kind the payload is decoded (and the
transcript loaded) before handler resolution, so with no applicable
handler the invocation is a no-op only when the payload decodes, while a
Stop payload decode failure is reported as an error even with no handler
registered. -/
theorem unregistered_handler_noop (env : Env) (r : Runner) (obj : JObject) :
    (r.PreToolUse = none → handlePreToolUse env r obj = .ok (.ok none)) ∧
    (r.PostToolUse = none → handlePostToolUse env r obj = .ok (.ok none)) ∧
    (r.Notification = none → handleNotification env r obj = .ok (.ok none)) ∧
    (∀ ev0, r.Stop = none → r.StopOnce = none →
      env.decodeStop obj = .ok ev0 →
      handleStop env r obj = .ok (.ok none)) ∧
    (∀ m, r.Stop = none → r.StopOnce = none →
      env.decodeStop obj = .error m →
      handleStop env r obj =
        .ok (.error ("failed to parse StopEvent: " ++ m))) := by
  refine ⟨?_, ?_, ?_, ?_, ?_⟩
  · intro h
    simp [handlePreToolUse, h]
  · intro h
    simp [handlePostToolUse, h]
  · intro h
    simp [handleNotification, h]
  · intro ev0 h1 h2 hdec
    simp [handleStop, hdec, selectStopHandler_none r _ h1 h2]
  · intro m h1 h2 hdec
    simp [handleStop, hdec]

/-- C9 witness: an unregistered tool-invocation handler is a silent no-op. -/
theorem unregistered_handler_noop_witness :
    emptyRunner.PreToolUse = none ∧
    handlePreToolUse testEnv emptyRunner
        [("hook_event_name", .str "PreToolUse")] = .ok (.ok none) :=
  ⟨rfl, (unregistered_handler_noop testEnv emptyRunner
    [("hook_event_name", .str "PreToolUse")]).1 rfl⟩

/-- C10: a registered handler returning a nil response pointer with a nil
error makes the emptiness check dereference the nil pointer and panic with
the runtime nil-dereference error; the recovery boundary reports it as a
panic-prefixed handler error through the normal error path, so under the
default policy the process exits 2 (0 for the Stop kind) with the message
on stderr — a nil response is a failure, never a structurally-empty
success. -/
theorem nil_response_is_failure :
    isEmpty (.pre none) = .panicked nilDerefPanic ∧
    isEmpty (.post none) = .panicked nilDerefPanic ∧
    isEmpty (.notif none) = .panicked nilDerefPanic ∧
    isEmpty (.stop none) = .panicked nilDerefPanic ∧
    (∀ (env : Env) (r : Runner) (raw : String) (obj : JObject)
      (h : PreToolUseEvent → HandlerOutcome PreToolUseResponse)
      (ev : PreToolUseEvent),
      r.Raw = none → r.Error = none →
      env.decodeTop raw = .ok obj →
      List.lookup "hook_event_name" obj = some (.str "PreToolUse") →
      r.PreToolUse = some h → env.decodePre obj = .ok ev → h ev = .ok none →
      Run env r (.ok raw) =
        .exit 2 "" ("panic: " ++ panicMessage nilDerefPanic ++ "\n")) ∧
    (∀ (env : Env) (r : Runner) (raw : String) (obj : JObject)
      (h : StopEvent → HandlerOutcome StopResponse) (ev0 : StopEvent),
      r.Raw = none → r.Error = none →
      env.decodeTop raw = .ok obj →
      List.lookup "hook_event_name" obj = some (.str "Stop") →
      r.Stop = some h → r.StopOnce = none →
      env.decodeStop obj = .ok ev0 →
      h { ev0 with Transcript := stopTranscript env ev0.TranscriptPath } =
        .ok none →
      Run env r (.ok raw) =
        .exit 0 "" ("panic: " ++ panicMessage nilDerefPanic ++ "\n")) := by
  refine ⟨rfl, rfl, rfl, rfl, ?_, ?_⟩
  · intro env r raw obj h ev hraw hE hdec hlook hpre hdecpre hresp
    have hstop : isStopRaw env raw = false := by
      simp [isStopRaw, hdec, hlook]
    simp [Run, runBody, hraw, runCore, hdec, hlook, dispatchEvent,
      handlePreToolUse, hpre, hdecpre, hresp, outputResponse, isEmpty,
      liftHandled, nilDerefPanic, handleError, hE, hstop]
  · intro env r raw obj h ev0 hraw hE hdec hlook hstopH hso hdecstop hresp
    have hstop : isStopRaw env raw = true := by
      simp [isStopRaw, hdec, hlook]
    have hsel : selectStopHandler r ev0.StopHookActive = some h := by
      cases hact : ev0.StopHookActive <;>
        simp [selectStopHandler, hso, hstopH]
    simp [Run, runBody, hraw, runCore, hdec, hlook, dispatchEvent,
      handleStop, hdecstop, hsel, hresp, outputResponse, isEmpty,
      liftHandled, nilDerefPanic, handleError, hE, hstop]

/-- C10 witness: a tool-invocation handler returning a nil response exits 2
with the panic-prefixed runtime error on stderr. -/
theorem nil_response_is_failure_witness :
    nilRespRunner.PreToolUse.isSome = true ∧
    Run testEnv nilRespRunner (.ok "rawPre") =
      .exit 2 ""
        "panic: runtime error: invalid memory address or nil pointer dereference\n" :=
  ⟨rfl, nil_response_is_failure.2.2.2.2.1 testEnv nilRespRunner "rawPre"
    [("hook_event_name", .str "PreToolUse")] (fun _ => .ok none)
    ⟨"s1", "Bash", "ls"⟩ rfl rfl rfl rfl rfl rfl rfl⟩

end CCHooks
